import Mathlib

/-!
Verification of the payment reconciliation subsystem of the alpha-studio
backend (Express + Mongoose).  The definitions below are a shallow embedding
of the Casso payment routes (`server/routes/payment.js`, the Casso version),
the admin recovery routes (`server/routes/admin.js`) and the Mongoose models
(`server/models/Transaction.js`, `server/models/WebhookLog.js`).

Modelling conventions:
* Mongo documents are Lean structures; a collection is a `List` of documents
  in insertion order (`findOne` = `List.find?`, `updateMany`/`save` = `List.map`
  keyed on `_id`).
* JS numbers that hold monetary amounts/credits are `Int`; `Math.floor (a/1000)`
  is `Int.fdiv a 1000`.
* Fields that may be `undefined` are `Option`s; the JS `x || d` fallback on a
  possibly-undefined value is `Option.getD` (with an explicit empty-string case
  where `''` is falsy).
* Timestamps (`Date.now()`, `new Date()`) are an explicit `now : Int`
  parameter, in milliseconds.
* Request metadata (`ipAddress`, `headers`) and the `parsedData.when`
  timestamp are not claim-relevant and are not modelled.
-/

namespace AlphaStudio

/-- Transaction.status.  The schema enum lists pending/completed/failed/
cancelled; the admin timeout sweep additionally writes `timeout` through
`updateMany` (update validators are not run there, so the store accepts it). -/
inductive TxStatus
  | pending
  | completed
  | failed
  | cancelled
  | timeout
deriving DecidableEq, Repr

/-- WebhookLog.status enum. -/
inductive LogStatus
  | received
  | processing
  | matched
  | unmatched
  | error
  | ignored
deriving DecidableEq, Repr

/-- The `data` object of a Casso V2 webhook body (the fields the handler
destructures). -/
structure CassoData where
  cassoId : Option Int := none
  reference : Option String := none
  description : Option String := none
  amount : Int := 0
  transactionDateTime : Option String := none
  counterAccountName : Option String := none
deriving DecidableEq, Repr

/-- A Casso V2 webhook body: `{ error: 0 | code, data: {...} }`.  A missing
`error` field is `none` (so the JS test `error !== 0` succeeds on it). -/
structure CassoPayload where
  error : Option Int := none
  data : Option CassoData := none
deriving DecidableEq, Repr

/-- What a WebhookLog's `payload` field holds: the early error branches store
the whole request body, the main path stores the inner `data` object. -/
inductive StoredPayload
  | body (p : CassoPayload)
  | txdata (d : CassoData)
deriving DecidableEq, Repr

/-- One Transaction document (`server/models/Transaction.js`).  `confirmedAt`
is not declared in the schema but is present on stored documents and queried
by the admin timeout sweep. -/
structure Tx where
  id : Nat
  userId : Option Nat := none
  txType : String := "topup"
  amount : Int
  credits : Int
  status : TxStatus := .pending
  transactionCode : String
  paymentMethod : String := "bank_transfer"
  webhookData : Option StoredPayload := none
  webhookLogId : Option Nat := none
  bankTransactionId : Option String := none
  description : String := ""
  processedBy : Option Nat := none
  adminNote : Option String := none
  processedAt : Option Int := none
  failedReason : Option String := none
  expiresAt : Option Int := none
  confirmedAt : Option Int := none
deriving DecidableEq, Repr

/-- The `parsedData` subdocument of a WebhookLog. -/
structure ParsedData where
  transactionCode : Option String := none
  amount : Option Int := none
  description : Option String := none
  bankTransactionId : Option String := none
deriving DecidableEq, Repr

/-- One WebhookLog document (`server/models/WebhookLog.js`). -/
structure LogEntry where
  id : Nat
  source : String := "casso"
  payload : StoredPayload
  parsedData : ParsedData := {}
  status : LogStatus := .received
  matchedTransactionId : Option Nat := none
  matchedUserId : Option Nat := none
  errorMessage : Option String := none
  processingNotes : Option String := none
deriving DecidableEq, Repr

/-- The slice of a User document the payment subsystem touches. -/
structure UserRec where
  id : Nat
  name : String := ""
  email : String := ""
  balance : Int := 0
deriving DecidableEq, Repr

/-- The store: the three collections, plus fresh-id counters standing for
Mongo's client-side `_id` generation. -/
structure St where
  txs : List Tx := []
  users : List UserRec := []
  logs : List LogEntry := []
  nextLogId : Nat := 0
  nextTxId : Nat := 0
deriving DecidableEq, Repr

/-- An HTTP response `res.status(s).json({success, message})`. -/
structure Resp where
  status : Nat
  success : Bool
  message : String
deriving DecidableEq, Repr

/-- Store-level operations a webhook delivery performs, in order; used to
state persistence/ordering properties of the handler. -/
inductive Ev
  | verify (ok : Bool)
  | saveLog (s : LogStatus)
  | findTx (code : String)
  | saveTx (s : TxStatus)
  | incBal (uid : Nat) (delta : Int)
deriving DecidableEq, Repr

/-- Model of `document.save()` on a fetched Transaction: an unconditional write keyed
on `_id` only (Mongoose issues no status guard). -/
def saveTxById (txs : List Tx) (t : Tx) : List Tx :=
  txs.map fun u => if u.id = t.id then t else u

/-- Model of `log.save()` on a fetched WebhookLog. -/
def saveLogById (logs : List LogEntry) (l : LogEntry) : List LogEntry :=
  logs.map fun u => if u.id = l.id then l else u

/-- Model of `User.findByIdAndUpdate` with a balance `$inc`: atomic
increment, a no-op when the user does not exist. -/
def incBalance (users : List UserRec) (uid : Nat) (delta : Int) : List UserRec :=
  users.map fun u => if u.id = uid then { u with balance := u.balance + delta } else u

/-- Balance of a user id, 0 when absent. -/
def balanceOfL (users : List UserRec) (uid : Nat) : Int :=
  match users.find? (fun u => decide (u.id = uid)) with
  | some u => u.balance
  | none => 0

/-- Model of `Transaction.findOne` on transactionCode plus pending status. -/
def findPendingTx (txs : List Tx) (code : String) : Option Tx :=
  txs.find? fun t => decide (t.transactionCode = code ∧ t.status = TxStatus.pending)

/-- Append a freshly created WebhookLog (`new WebhookLog(...).save()` /
`WebhookLog.create`). -/
def appendLog (st : St) (log : LogEntry) : St :=
  { st with logs := st.logs ++ [log], nextLogId := st.nextLogId + 1 }

/-- The `[A-Z0-9]` character class. -/
def isCodeChar (c : Char) : Bool :=
  (decide ('A' ≤ c) && decide (c ≤ 'Z')) || (decide ('0' ≤ c) && decide (c ≤ '9'))

/-- Try the regex `ALPHA[A-Z0-9]{6}` anchored at the head of the char list. -/
def matchAlphaAt (cs : List Char) : Option String :=
  let pre := cs.take 5
  let suf := (cs.drop 5).take 6
  if pre = "ALPHA".toList && decide (suf.length = 6) && suf.all isCodeChar then
    some (String.mk (pre ++ suf))
  else none

/-- Leftmost match of `ALPHA[A-Z0-9]{6}`. -/
def findAlphaCode : List Char → Option String
  | [] => none
  | c :: rest =>
    match matchAlphaAt (c :: rest) with
    | some s => some s
    | none => findAlphaCode rest

/-- Model of `description.toUpperCase().match(...)` with the ALPHA regex (the reprocess route
matches case-insensitively and uppercases the match — the same function over
ASCII input). -/
def extractAlphaCode (desc : String) : Option String :=
  findAlphaCode (desc.toList.map Char.toUpper)

/-- Token check `verifyCassoWebhook`: with no configured secret every request passes;
otherwise the header/query `secure-token` must equal the secret. -/
def verifyCassoWebhook (secret : String) (secureToken : Option String) : Bool :=
  if secret = "" then true
  else secureToken == some secret

/-- Render an `Option Int` the way template interpolation of a possibly
undefined JS value does. -/
def optIntStr : Option Int → String
  | some n => toString n
  | none => "undefined"

def optStr : Option String → String
  | some s => s
  | none => "undefined"

/-- The part of `router.post('/webhook')` (Casso version) that runs once the
request body has a `data` object: parse, match, settle.  Returns the new
store, the response, and the ordered store-operation trace. -/
def processData (d : CassoData) (now : Int) (st : St) : St × Resp × List Ev :=
  let logId := st.nextLogId
  let log0 : LogEntry :=
    { id := logId
      payload := .txdata d
      parsedData :=
        { transactionCode := none
          amount := some d.amount
          description := d.description
          bankTransactionId := d.reference }
      status := .processing }
  match extractAlphaCode ((d.description).getD "") with
  | none =>
    let log1 :=
      { log0 with
        status := .unmatched
        processingNotes := some ("No ALPHA code found. Description: " ++ optStr d.description) }
    (appendLog st log1, ⟨200, true, "No matching code found"⟩, [.saveLog .unmatched])
  | some code =>
    let log1 := { log0 with parsedData := { log0.parsedData with transactionCode := some code } }
    match findPendingTx st.txs code with
    | none =>
      let log2 :=
        { log1 with
          status := .unmatched
          processingNotes := some ("No pending transaction found for code: " ++ code) }
      (appendLog st log2, ⟨200, true, "No pending transaction found"⟩,
       [.findTx code, .saveLog .unmatched])
    | some tx =>
      if tx.amount != d.amount then
        let reason := "Amount mismatch: expected " ++ toString tx.amount ++ ", got " ++ toString d.amount
        let tx' :=
          { tx with
            status := .failed
            failedReason := some reason
            webhookData := some (.txdata d)
            webhookLogId := some logId }
        let log2 :=
          { log1 with
            status := .error
            errorMessage := some reason
            matchedTransactionId := some tx.id
            matchedUserId := tx.userId }
        (appendLog { st with txs := saveTxById st.txs tx' } log2,
         ⟨200, true, "Amount mismatch"⟩,
         [.findTx code, .saveTx .failed, .saveLog .error])
      else
        let tx' :=
          { tx with
            status := .completed
            webhookData := some (.txdata d)
            webhookLogId := some logId
            bankTransactionId := d.reference
            processedAt := some now
            description := "Nạp " ++ toString tx.credits ++ " credits từ "
              ++ (d.counterAccountName).getD "Bank Transfer" }
        let log2 :=
          { log1 with
            status := .matched
            matchedTransactionId := some tx.id
            matchedUserId := tx.userId
            processingNotes := some ("Successfully matched and processed. Credits: "
              ++ toString tx.credits) }
        let st2 := appendLog { st with txs := saveTxById st.txs tx' } log2
        match tx.userId with
        | some uid =>
          ({ st2 with users := incBalance st2.users uid tx.credits },
           ⟨200, true, "Webhook processed successfully"⟩,
           [.findTx code, .saveTx .completed, .saveLog .matched, .incBal uid tx.credits])
        | none =>
          (st2, ⟨200, true, "Webhook processed successfully"⟩,
           [.findTx code, .saveTx .completed, .saveLog .matched])

/-- The webhook handler after signature verification passed: Casso error-code
check, missing-data check, then `processData`. -/
def processAfterVerify (body : CassoPayload) (now : Int) (st : St) : St × Resp × List Ev :=
  if body.error != some 0 then
    (appendLog st
      { id := st.nextLogId
        payload := .body body
        status := .error
        errorMessage := some ("Casso error code: " ++ optIntStr body.error) },
     ⟨200, false, "Webhook error"⟩, [.saveLog .error])
  else
    match body.data with
    | none =>
      (appendLog st
        { id := st.nextLogId
          payload := .body body
          status := .error
          errorMessage := some "No transaction data in webhook" },
       ⟨200, false, "No data"⟩, [.saveLog .error])
    | some d => processData d now st

/-- Handler of `POST /webhook` in the Casso payment route: verify the secure
token, then process; every branch answers HTTP 200. -/
def processCassoWebhook (secret : String) (secureToken : Option String)
    (body : CassoPayload) (now : Int) (st : St) : St × Resp × List Ev :=
  if verifyCassoWebhook secret secureToken then
    let r := processAfterVerify body now st
    (r.1, r.2.1, Ev.verify true :: r.2.2)
  else
    (appendLog st
      { id := st.nextLogId
        payload := .body body
        status := .error
        errorMessage := some "Invalid webhook signature" },
     ⟨200, false, "Invalid signature"⟩, [.verify false, .saveLog .error])

/-- One entry of the payment route's `CREDIT_PACKAGES` configuration. -/
structure CreditPackage where
  pkgId : String
  credits : Int
  price : Int
  label : String
  bonus : Option String := none
  popular : Bool := false
deriving DecidableEq, Repr

/-- The `CREDIT_PACKAGES` configuration of the Casso payment route. -/
def CREDIT_PACKAGES : List CreditPackage :=
  [ { pkgId := "pkg0", credits := 10, price := 10000, label := "10 Credits" },
    { pkgId := "pkg1", credits := 100, price := 100000, label := "100 Credits" },
    { pkgId := "pkg2", credits := 210, price := 200000, label := "210 Credits", bonus := some "+10%" },
    { pkgId := "pkg3", credits := 550, price := 500000, label := "550 Credits", bonus := some "+10%", popular := true },
    { pkgId := "pkg4", credits := 1200, price := 1000000, label := "1.200 Credits", bonus := some "+20%" } ]

/-- Lookup `getCreditsForAmount` of the payment route: exact package-price lookup,
else `Math.floor(amount / 1000)`. -/
def getCreditsForAmount (amount : Int) : Int :=
  match CREDIT_PACKAGES.find? (fun p => decide (p.price = amount)) with
  | some p => p.credits
  | none => Int.fdiv amount 1000

/-- The inline `CREDIT_PACKAGES` list of the admin assign-user route
(price, credits). -/
def ADMIN_CREDIT_PACKAGES : List (Int × Int) :=
  [ (10000, 10), (100000, 100), (200000, 210), (500000, 550), (1000000, 1120) ]

/-- The credit computation of the admin assign-user route: exact lookup in its
inline list, else `Math.floor(amount / 1000)`. -/
def adminCreditsForAmount (amount : Int) : Int :=
  match ADMIN_CREDIT_PACKAGES.find? (fun p => decide (p.1 = amount)) with
  | some p => p.2
  | none => Int.fdiv amount 1000

/-- Fallback `x || null` on an optional string: an empty string is falsy in JS. -/
def orNullStr : Option String → Option String
  | some s => if s = "" then none else some s
  | none => none

/-- Model of `WebhookLog.findById`. -/
def findLogById (logs : List LogEntry) (logId : Nat) : Option LogEntry :=
  logs.find? fun l => decide (l.id = logId)

/-- Handler of `POST /webhook-logs/:id/reprocess` in the admin routes: re-runs
the matcher over the stored `parsedData` of a webhook log.  Note that it does
not check the log's current status, and that its amount guard is
`amount < transaction.amount` (strictly below), unlike the live webhook's
`transaction.amount !== amount`. -/
def reprocessWebhookLog (st : St) (logId : Nat) (adminId : Nat) (now : Int) : St × Resp :=
  match findLogById st.logs logId with
  | none => (st, ⟨404, false, "Log not found"⟩)
  | some log =>
    let description := (log.parsedData.description).getD ""
    match extractAlphaCode description with
    | none =>
      let log' :=
        { log with
          status := .unmatched
          processingNotes := some "Reprocessed: No ALPHA code found in description" }
      ({ st with logs := saveLogById st.logs log' },
       ⟨200, false, "Không tìm thấy mã ALPHA trong nội dung"⟩)
    | some transactionCode =>
      let amount : Int := (log.parsedData.amount).getD 0
      match findPendingTx st.txs transactionCode with
      | none =>
        let log' :=
          { log with
            status := .unmatched
            processingNotes := some ("Reprocessed: No pending transaction found for " ++ transactionCode) }
        ({ st with logs := saveLogById st.logs log' },
         ⟨200, false, "Không tìm thấy giao dịch pending với mã " ++ transactionCode⟩)
      | some tx =>
        if amount < tx.amount then
          let log' :=
            { log with
              status := .error
              processingNotes := some ("Reprocessed: Amount mismatch. Expected "
                ++ toString tx.amount ++ ", got " ++ toString amount) }
          ({ st with logs := saveLogById st.logs log' },
           ⟨200, false, "Số tiền không khớp. Cần " ++ toString tx.amount
             ++ ", nhận " ++ toString amount⟩)
        else
          let tx' :=
            { tx with
              status := .completed
              webhookData := some log.payload
              webhookLogId := some log.id
              bankTransactionId := orNullStr log.parsedData.bankTransactionId
              processedAt := some now
              processedBy := some adminId
              adminNote := some "Reprocessed from webhook log by admin" }
          let st1 := { st with txs := saveTxById st.txs tx' }
          let st2 :=
            match tx.userId with
            | some uid => { st1 with users := incBalance st1.users uid tx.credits }
            | none => st1
          let log' :=
            { log with
              status := .matched
              matchedTransactionId := some tx.id
              matchedUserId := tx.userId
              processingNotes := some "Reprocessed successfully by admin" }
          ({ st2 with logs := saveLogById st2.logs log' },
           ⟨200, true, "Đã xử lý thành công. Cộng " ++ toString tx.credits ++ " credits."⟩)

/-- Handler of `POST /webhook-logs/:id/assign-user` in the admin routes:
manually attach an unmatched webhook to a user and credit the computed
amount.  `codeSuffix` stands for the random part of the generated
`WEBHOOK...` transaction code. -/
def assignUserToWebhook (st : St) (logId : Nat) (userId : Option Nat)
    (note : Option String) (adminId : Nat) (now : Int) (codeSuffix : String) : St × Resp :=
  match userId with
  | none => (st, ⟨400, false, "User ID is required"⟩)
  | some uid =>
    match findLogById st.logs logId with
    | none => (st, ⟨404, false, "Log not found"⟩)
    | some log =>
      if log.status = .matched then
        (st, ⟨400, false, "Webhook already matched"⟩)
      else
        match st.users.find? (fun u => decide (u.id = uid)) with
        | none => (st, ⟨404, false, "User not found"⟩)
        | some user =>
          let amount : Int := (log.parsedData.amount).getD 0
          if amount ≤ 0 then
            (st, ⟨400, false, "Invalid amount in webhook"⟩)
          else
            let credits := adminCreditsForAmount amount
            let transactionCode := "WEBHOOK" ++ toString now ++ codeSuffix
            let tx : Tx :=
              { id := st.nextTxId
                userId := some uid
                txType := "topup"
                amount := amount
                credits := credits
                status := .completed
                transactionCode := transactionCode
                paymentMethod := "bank_transfer"
                description := "Admin assigned from webhook: " ++ (note.getD "Manual assignment")
                webhookData := some log.payload
                webhookLogId := some log.id
                bankTransactionId := orNullStr log.parsedData.bankTransactionId
                processedBy := some adminId
                adminNote := some (note.getD "Assigned from unmatched webhook by admin")
                processedAt := some now }
            let st1 := { st with txs := st.txs ++ [tx], nextTxId := st.nextTxId + 1 }
            let user' := { user with balance := user.balance + credits }
            let st2 :=
              { st1 with users := st1.users.map fun u : UserRec => if u.id = uid then user' else u }
            let log' :=
              { log with
                status := .matched
                matchedTransactionId := some tx.id
                matchedUserId := some uid
                processingNotes := some ("Manually assigned to " ++ user.name ++ " ("
                  ++ user.email ++ ") by admin. Credits: " ++ toString credits) }
            ({ st2 with logs := saveLogById st2.logs log' },
             ⟨200, true, "Đã cộng " ++ toString credits ++ " credits cho " ++ user.name⟩)

/-- The fixed `failedReason` written by the timeout sweep. -/
def timeoutReason : String := "No webhook received within 5 minutes after confirmation"

/-- The filter of the sweep's `updateMany`:
`{ status: 'pending', confirmedAt: { $ne: null, $lt: cutoff } }` (a missing
or null `confirmedAt` matches neither `$ne: null` nor `$lt`). -/
def sweepPred (cutoff : Int) (t : Tx) : Bool :=
  decide (t.status = TxStatus.pending) &&
    (match t.confirmedAt with
     | some c => decide (c < cutoff)
     | none => false)

/-- Handler of `POST /transactions/check-timeout` in the admin routes: one
`Transaction.updateMany` setting status/failedReason on every matching row;
returns the new store and `modifiedCount`. -/
def sweepTimeouts (now : Int) (st : St) : St × Nat :=
  ({ st with
     txs := st.txs.map fun t =>
       if sweepPred (now - 5 * 60 * 1000) t then
         { t with status := .timeout, failedReason := some timeoutReason }
       else t },
   (st.txs.filter (sweepPred (now - 5 * 60 * 1000))).length)

/-- The `uppercase` alphabet of `generateTransferContent` ("removed I and O"). -/
def uppercaseChars : String := "ABCDEFGHJKLMNPQRSTUVWXYZ"

/-- The `numbers` alphabet of `generateTransferContent` ("removed 0"). -/
def numberChars : String := "123456789"

/-- Joint alphabet `allChars = uppercase + numbers`. -/
def allChars : String := uppercaseChars ++ numberChars

/-- Model of `s.charAt(Math.floor(Math.random() * s.length))`: an arbitrary draw `r`
reduced into range. -/
def pickChar (s : String) (r : Nat) : Char :=
  s.toList.getD (r % s.toList.length) 'A'

/-- Generator `generateTransferContent`: two uppercase draws, two number draws, two
draws from the joint alphabet, shuffled, behind the fixed `ALPHA` marker.
The six random draws and the shuffle produced by `sort(() => 0.5 - random)`
are explicit parameters. -/
def generateTransferContent (r1 r2 r3 r4 r5 r6 : Nat)
    (shuffle : List Char → List Char) : String :=
  let cs := [pickChar uppercaseChars r1, pickChar uppercaseChars r2,
             pickChar numberChars r3, pickChar numberChars r4,
             pickChar allChars r5, pickChar allChars r6]
  "ALPHA" ++ String.mk (shuffle cs)

/-- The collision-retry loop of `router.post('/create')`: try candidates in
order while `Transaction.findOne({ transactionCode })` reports a collision;
`attempts` may reach 10, after which the route answers HTTP 500 instead of
returning a code.  `taken` is the collision oracle, `cands` the successive
outputs of `generateTransferContent`. -/
def pickFreshCode (taken : String → Bool) : List String → Option String
  | [] => none
  | c :: rest => if taken c then pickFreshCode taken rest else some c

/-- The bounded generation of `/create`: at most 10 candidates are consulted. -/
def generateUniqueCode (taken : String → Bool) (cands : List String) : Option String :=
  pickFreshCode taken (cands.take 10)

/-! ### Interleaving model of concurrent webhook deliveries

Each inbound delivery runs the matched path of `router.post('/webhook')` as a
sequence of store round-trips (the `await` points):
`Transaction.findOne` → `transaction.save()` → `webhookLog.save()` →
`User.findByIdAndUpdate($inc)`.  The host runtime may interleave two
deliveries at any of these awaits.  Crucially, `transaction.save()` is an
unconditional write keyed on `_id` (no `status: 'pending'` guard), and the
decision to settle is based on the `findOne` snapshot held in the handler's
local variable. -/

/-- The local state of one in-flight delivery: its program counter and the
`transaction` document its `findOne` returned.  `pc` meanings:
0 = before `findOne`; 1 = before `transaction.save()`; 2 = before
`webhookLog.save()`; 3 = before the balance `$inc`; 4 = finished having
settled; 20 = finished unmatched; 21 = finished amount-mismatch. -/
structure DeliveryProc where
  pc : Nat := 0
  found : Option Tx := none
deriving DecidableEq, Repr

/-- The payload-derived inputs of one delivery: the extracted code and the
reported amount, plus the id of the WebhookLog it created on entry. -/
structure Delivery where
  code : String
  amount : Int
  logId : Nat
deriving DecidableEq, Repr

/-- One store round-trip of a delivery, exactly as the matched path of the
webhook handler performs it. -/
def stepDelivery (d : Delivery) (now : Int) : St × DeliveryProc → St × DeliveryProc :=
  fun gp =>
  let g := gp.1
  let p := gp.2
  match p.pc with
  | 0 => (g, { p with found := findPendingTx g.txs d.code, pc := 1 })
  | 1 =>
    match p.found with
    | none => (g, { p with pc := 20 })
    | some tx =>
      if tx.amount != d.amount then
        let reason := "Amount mismatch: expected " ++ toString tx.amount ++ ", got " ++ toString d.amount
        let tx' := { tx with status := TxStatus.failed, failedReason := some reason, webhookLogId := some d.logId }
        ({ g with txs := saveTxById g.txs tx' }, { p with pc := 21 })
      else
        let tx' := { tx with status := TxStatus.completed, webhookLogId := some d.logId, processedAt := some now }
        ({ g with txs := saveTxById g.txs tx' }, { p with pc := 2 })
  | 2 =>
    match p.found with
    | some tx =>
      (appendLog g
        { id := d.logId
          payload := .body {}
          status := .matched
          matchedTransactionId := some tx.id
          matchedUserId := tx.userId },
       { p with pc := 3 })
    | none => (g, { p with pc := 3 })
  | 3 =>
    match p.found with
    | some tx =>
      (match tx.userId with
       | some uid => ({ g with users := incBalance g.users uid tx.credits }, { p with pc := 4 })
       | none => (g, { p with pc := 4 }))
    | none => (g, { p with pc := 4 })
  | _ => (g, p)

/-- Run two concurrent deliveries under a schedule: `true` steps the first,
`false` steps the second. -/
def runRace (d1 d2 : Delivery) (now : Int) :
    List Bool → St × DeliveryProc × DeliveryProc → St × DeliveryProc × DeliveryProc
  | [], s => s
  | b :: rest, (g, p1, p2) =>
    if b then
      let r := stepDelivery d1 now (g, p1)
      runRace d1 d2 now rest (r.1, r.2, p2)
    else
      let r := stepDelivery d2 now (g, p2)
      runRace d1 d2 now rest (r.1, p1, r.2)

/-! ### Trace observations and concrete fixtures -/

/-- The statuses carried by the `saveLog` operations of a trace, in order. -/
def logSaveStatuses (evs : List Ev) : List LogStatus :=
  evs.filterMap fun e =>
    match e with
    | .saveLog s => some s
    | _ => none

/-- The persistence discipline asserted for the webhook endpoint, at one
input: exactly one WebhookEvent is persisted, and it is persisted first —
ahead of signature verification and of every matching step — with status
received/processing. -/
def persistFirstAt (secret : String) (token : Option String) (body : CassoPayload)
    (now : Int) (st : St) : Prop :=
  (logSaveStatuses (processCassoWebhook secret token body now st).2.2).length = 1 ∧
  ∃ s, (processCassoWebhook secret token body now st).2.2.head? = some (.saveLog s) ∧
       (s = LogStatus.received ∨ s = LogStatus.processing)

/-- A pending topup of 100 credits for 100000 VND owned by user 7. -/
def txOne : Tx :=
  { id := 1
    userId := some 7
    amount := 100000
    credits := 100
    status := .pending
    transactionCode := "ALPHAAB23CD" }

def userSeven : UserRec := { id := 7, balance := 5 }

/-- A Casso `data` object whose description carries txOne's code and whose
amount matches. -/
def dataOne : CassoData :=
  { reference := some "FT123"
    description := some "ALPHAAB23CD giao dich"
    amount := 100000 }

def bodyOne : CassoPayload := { error := some 0, data := some dataOne }

def stOne : St := { txs := [txOne], users := [userSeven], logs := [], nextLogId := 0, nextTxId := 10 }

/-- Same webhook but reporting one unit more than the pending amount. -/
def dataOff : CassoData := { description := some "ALPHAAB23CD giao dich", amount := 100001 }

def bodyOff : CassoPayload := { error := some 0, data := some dataOff }

/-- A WebhookLog already in `matched` status whose stored description carries
a code with no pending transaction. -/
def logMatched : LogEntry :=
  { id := 3
    payload := .body {}
    parsedData := { description := some "ALPHAZZ88ZZ x", amount := some 100000 }
    status := .matched }

def stMatched : St := { logs := [logMatched] }

/-- An unmatched WebhookLog whose stored amount overpays txOne by 50000. -/
def logOver : LogEntry :=
  { id := 3
    payload := .body {}
    parsedData := { description := some "ALPHAAB23CD x", amount := some 150000 }
    status := .unmatched }

def stOver : St := { txs := [txOne], users := [userSeven], logs := [logOver] }

/-- A live webhook body reporting the same 50000-overpayment as `logOver`. -/
def dataOver : CassoData := { description := some "ALPHAAB23CD x", amount := 150000 }

def bodyOver : CassoPayload := { error := some 0, data := some dataOver }

/-- Two concurrent deliveries of the webhook for txOne's code and amount. -/
def raceDelivery1 : Delivery := { code := "ALPHAAB23CD", amount := 100000, logId := 100 }

def raceDelivery2 : Delivery := { code := "ALPHAAB23CD", amount := 100000, logId := 101 }

/-- The interleaving in which both deliveries run `findOne` before either
writes: D1 reads, D2 reads, D1 finishes, D2 finishes. -/
def raceSchedule : List Bool := [true, false, true, true, true, false, false, false]

/-- A pending transaction confirmed at time 0, swept at `now = 400000`
(6 minutes 40s later). -/
def txConfirmed : Tx :=
  { id := 2
    userId := some 7
    amount := 10000
    credits := 10
    status := .pending
    transactionCode := "ALPHAZZ77ZZ"
    confirmedAt := some 0 }

def stSweep : St := { txs := [txConfirmed, txOne], users := [userSeven] }

/-! ### Helper lemmas about the store operations -/

/-- An `$inc` on an existing user raises exactly that balance by the delta. -/
theorem balanceOfL_incBalance {users : List UserRec} {uid : Nat} (delta : Int)
    (h : (users.find? fun u => decide (u.id = uid)).isSome) :
    balanceOfL (incBalance users uid delta) uid = balanceOfL users uid + delta := by
  induction users with
  | nil => simp [List.find?] at h
  | cons u rest ih =>
    by_cases hu : u.id = uid
    · simp [balanceOfL, incBalance, List.find?, hu]
    · have h' : (rest.find? fun v => decide (v.id = uid)).isSome := by
        simpa [List.find?, hu] using h
      have := ih h'
      simpa [balanceOfL, incBalance, List.find?, hu] using this

/-- An unconditional `transaction.save()` puts the written document into the
collection whenever some document with its `_id` was there. -/
theorem mem_saveTxById_self {txs : List Tx} {t t' : Tx} (h : t ∈ txs) (hid : t.id = t'.id) :
    t' ∈ saveTxById txs t' := by
  unfold saveTxById
  have hm := List.mem_map_of_mem (fun u => if u.id = t'.id then t' else u) h
  simpa [hid] using hm

/-- `log.save()` keeps a document with the written id in the collection. -/
theorem mem_saveLogById_self {logs : List LogEntry} {l l' : LogEntry}
    (h : l ∈ logs) (hid : l.id = l'.id) : l' ∈ saveLogById logs l' := by
  unfold saveLogById
  have hm := List.mem_map_of_mem (fun u => if u.id = l'.id then l' else u) h
  simpa [hid] using hm

/-- After the settling `save()` writes a non-pending document over the unique
holder of a code, `findOne({transactionCode, status: 'pending'})` finds
nothing. -/
theorem findPendingTx_saveTxById_none {txs : List Tx} {code : String} {tx tx' : Tx}
    (huniq : ∀ t ∈ txs, t.transactionCode = code → t = tx)
    (hid : tx'.id = tx.id)
    (hnp : tx'.status ≠ TxStatus.pending) :
    findPendingTx (saveTxById txs tx') code = none := by
  unfold findPendingTx saveTxById
  rw [List.find?_eq_none]
  intro u hu
  rcases List.mem_map.mp hu with ⟨t, ht, rfl⟩
  by_cases h : t.id = tx'.id
  · simp only [h, if_true, decide_eq_true_eq]
    rintro ⟨-, hp⟩
    exact hnp hp
  · simp only [h, if_false, decide_eq_true_eq]
    rintro ⟨hc, -⟩
    exact h ((congrArg Tx.id (huniq t ht hc)).trans hid.symm)

/-- Normal form of the webhook handler on the settling path: exact amount
match on a found pending transaction with an owner. -/
theorem processCassoWebhook_settle_eq (now : Int) (st : St)
    {secret : String} {token : Option String} {body : CassoPayload}
    {d : CassoData} {code : String} {tx : Tx} {uid : Nat}
    (hver : verifyCassoWebhook secret token = true)
    (herr : body.error = some 0)
    (hdata : body.data = some d)
    (hcode : extractAlphaCode ((d.description).getD "") = some code)
    (hfind : findPendingTx st.txs code = some tx)
    (heq : tx.amount = d.amount)
    (huid : tx.userId = some uid) :
    processCassoWebhook secret token body now st =
      ({ st with
         txs := saveTxById st.txs
           { tx with
             status := .completed
             webhookData := some (.txdata d)
             webhookLogId := some st.nextLogId
             bankTransactionId := d.reference
             processedAt := some now
             description := "Nạp " ++ toString tx.credits ++ " credits từ "
               ++ (d.counterAccountName).getD "Bank Transfer" }
         users := incBalance st.users uid tx.credits
         logs := st.logs ++
           [{ id := st.nextLogId
              payload := .txdata d
              parsedData :=
                { transactionCode := some code
                  amount := some d.amount
                  description := d.description
                  bankTransactionId := d.reference }
              status := .matched
              matchedTransactionId := some tx.id
              matchedUserId := some uid
              processingNotes := some ("Successfully matched and processed. Credits: "
                ++ toString tx.credits) }]
         nextLogId := st.nextLogId + 1 },
       ⟨200, true, "Webhook processed successfully"⟩,
       [.verify true, .findTx code, .saveTx .completed, .saveLog .matched,
        .incBal uid tx.credits]) := by
  have hbne : (body.error != some 0) = false := by simp [herr]
  have hamt : (tx.amount != d.amount) = false := by simp [heq]
  simp only [processCassoWebhook, hver, if_true, processAfterVerify, hbne,
    Bool.false_eq_true, if_false, hdata, processData, hcode, hfind, hamt, huid,
    appendLog, saveTxById, incBalance]

/-- Normal form of the webhook handler on the amount-mismatch path. -/
theorem processCassoWebhook_mismatch_eq (now : Int) (st : St)
    {secret : String} {token : Option String} {body : CassoPayload}
    {d : CassoData} {code : String} {tx : Tx}
    (hver : verifyCassoWebhook secret token = true)
    (herr : body.error = some 0)
    (hdata : body.data = some d)
    (hcode : extractAlphaCode ((d.description).getD "") = some code)
    (hfind : findPendingTx st.txs code = some tx)
    (hne : tx.amount ≠ d.amount) :
    processCassoWebhook secret token body now st =
      ({ st with
         txs := saveTxById st.txs
           { tx with
             status := .failed
             failedReason := some ("Amount mismatch: expected " ++ toString tx.amount
               ++ ", got " ++ toString d.amount)
             webhookData := some (.txdata d)
             webhookLogId := some st.nextLogId }
         logs := st.logs ++
           [{ id := st.nextLogId
              payload := .txdata d
              parsedData :=
                { transactionCode := some code
                  amount := some d.amount
                  description := d.description
                  bankTransactionId := d.reference }
              status := .error
              matchedTransactionId := some tx.id
              matchedUserId := tx.userId
              errorMessage := some ("Amount mismatch: expected " ++ toString tx.amount
                ++ ", got " ++ toString d.amount) }]
         nextLogId := st.nextLogId + 1 },
       ⟨200, true, "Amount mismatch"⟩,
       [.verify true, .findTx code, .saveTx .failed, .saveLog .error]) := by
  have hbne : (body.error != some 0) = false := by simp [herr]
  have hamt : (tx.amount != d.amount) = true := by simp [hne]
  simp only [processCassoWebhook, hver, if_true, processAfterVerify, hbne,
    Bool.false_eq_true, if_false, hdata, processData, hcode, hfind, hamt,
    appendLog, saveTxById]

/-- Normal form of the webhook handler when the code has no pending
transaction. -/
theorem processCassoWebhook_nopending_eq (now : Int) (st : St)
    {secret : String} {token : Option String} {body : CassoPayload}
    {d : CassoData} {code : String}
    (hver : verifyCassoWebhook secret token = true)
    (herr : body.error = some 0)
    (hdata : body.data = some d)
    (hcode : extractAlphaCode ((d.description).getD "") = some code)
    (hnone : findPendingTx st.txs code = none) :
    processCassoWebhook secret token body now st =
      ({ st with
         logs := st.logs ++
           [{ id := st.nextLogId
              payload := .txdata d
              parsedData :=
                { transactionCode := some code
                  amount := some d.amount
                  description := d.description
                  bankTransactionId := d.reference }
              status := .unmatched
              processingNotes := some ("No pending transaction found for code: " ++ code) }]
         nextLogId := st.nextLogId + 1 },
       ⟨200, true, "No pending transaction found"⟩,
       [.verify true, .findTx code, .saveLog .unmatched]) := by
  have hbne : (body.error != some 0) = false := by simp [herr]
  simp only [processCassoWebhook, hver, if_true, processAfterVerify, hbne,
    Bool.false_eq_true, if_false, hdata, processData, hcode, hnone, appendLog]

/-! ### C1 — concurrency of the settlement path -/

/-- C1: the claim asserts that at most one of two concurrent matching
deliveries for the same transferCode can settle, because the transition out
of `pending` is a store-level conditional update.  The handler actually runs
`Transaction.findOne({transactionCode, status: 'pending'})` followed by an
unconditional `transaction.save()` — an application-level read-then-write.
Under the interleaving `raceSchedule` in which both deliveries execute
`findOne` before either saves, BOTH deliveries finish on the settled path
(pc = 4), both webhook logs are `matched`, and user 7's balance is credited
twice (5 + 100 + 100), refuting the at-most-once settlement property. -/
theorem C1_race_double_settlement :
    balanceOfL (runRace raceDelivery1 raceDelivery2 1000 raceSchedule (stOne, {}, {})).1.users 7
        = balanceOfL stOne.users 7 + txOne.credits + txOne.credits ∧
    (runRace raceDelivery1 raceDelivery2 1000 raceSchedule (stOne, {}, {})).2.1.pc = 4 ∧
    (runRace raceDelivery1 raceDelivery2 1000 raceSchedule (stOne, {}, {})).2.2.pc = 4 ∧
    (runRace raceDelivery1 raceDelivery2 1000 raceSchedule (stOne, {}, {})).1.logs.map
        LogEntry.status = [.matched, .matched] := by
  refine ⟨?_, ?_, ?_, ?_⟩ <;> rfl

/-! ### C7 — the timeout sweep -/

/-- C7: `SweepTimeouts` transitions exactly the pending transactions whose
`confirmedAt` is set and older than the 5-minute window to `timeout` with
the fixed reason, touches no user balance and no webhook log, leaves every
other transaction untouched, and an immediately repeated call modifies zero
rows and does not change the store. -/
theorem sweepTimeouts_stable (now : Int) (st' : St)
    (hall : ∀ t ∈ st'.txs, sweepPred (now - 5 * 60 * 1000) t = false) :
    sweepTimeouts now st' = (st', 0) := by
  unfold sweepTimeouts
  have hmap : st'.txs.map
      (fun t : Tx => if sweepPred (now - 5 * 60 * 1000) t then
        { t with status := TxStatus.timeout, failedReason := some timeoutReason } else t)
      = st'.txs := by
    conv_rhs => rw [← List.map_id st'.txs]
    refine List.map_congr_left ?_
    intro t ht
    rw [if_neg (by rw [hall t ht]; exact Bool.false_ne_true)]
    rfl
  have hfil : st'.txs.filter (sweepPred (now - 5 * 60 * 1000)) = [] := by
    rw [List.filter_eq_nil_iff]
    intro t ht
    rw [hall t ht]
    exact Bool.false_ne_true
  rw [hmap, hfil]
  rfl

theorem C7_sweep_timeouts (now : Int) (st : St) :
    (sweepTimeouts now st).1.users = st.users ∧
    (sweepTimeouts now st).1.logs = st.logs ∧
    (sweepTimeouts now st).1.txs.length = st.txs.length ∧
    (∀ t ∈ st.txs, sweepPred (now - 5 * 60 * 1000) t = true →
       { t with status := TxStatus.timeout, failedReason := some timeoutReason }
         ∈ (sweepTimeouts now st).1.txs) ∧
    (∀ t ∈ st.txs, sweepPred (now - 5 * 60 * 1000) t = false →
       t ∈ (sweepTimeouts now st).1.txs) ∧
    (∀ t ∈ (sweepTimeouts now st).1.txs, sweepPred (now - 5 * 60 * 1000) t = false) ∧
    sweepTimeouts now (sweepTimeouts now st).1 = ((sweepTimeouts now st).1, 0) := by
  set cutoff := now - 5 * 60 * 1000 with hcut
  have hstep : ∀ t : Tx, sweepPred cutoff
      (if sweepPred cutoff t then
        { t with status := TxStatus.timeout, failedReason := some timeoutReason }
      else t) = false := by
    intro t
    cases h : sweepPred cutoff t with
    | false =>
      rw [if_neg (by exact Bool.false_ne_true)]
      exact h
    | true =>
      rw [if_pos rfl]
      simp [sweepPred]
  have hall : ∀ t ∈ (sweepTimeouts now st).1.txs, sweepPred cutoff t = false := by
    intro t ht
    simp only [sweepTimeouts, ← hcut] at ht
    rcases List.mem_map.mp ht with ⟨u, _, rfl⟩
    exact hstep u
  refine ⟨rfl, rfl, by simp [sweepTimeouts], ?_, ?_, hall, ?_⟩
  · intro t ht hp
    have := List.mem_map_of_mem
      (fun t : Tx => if sweepPred cutoff t then
        { t with status := TxStatus.timeout, failedReason := some timeoutReason } else t) ht
    simpa [sweepTimeouts, hp] using this
  · intro t ht hp
    have := List.mem_map_of_mem
      (fun t : Tx => if sweepPred cutoff t then
        { t with status := TxStatus.timeout, failedReason := some timeoutReason } else t) ht
    simpa [sweepTimeouts, hp] using this
  · rw [hcut] at hall
    exact sweepTimeouts_stable now _ hall

/-- Witness for C7 at a concrete store: a transaction confirmed 6min40s ago
is swept, balances survive, and the repeated sweep is a no-op. -/
theorem C7_sweep_timeouts_witness :
    (sweepTimeouts 400000 stSweep).1.users = stSweep.users ∧
    ({ txConfirmed with status := TxStatus.timeout, failedReason := some timeoutReason }
       ∈ (sweepTimeouts 400000 stSweep).1.txs) ∧
    sweepTimeouts 400000 (sweepTimeouts 400000 stSweep).1 = ((sweepTimeouts 400000 stSweep).1, 0) := by
  have h := C7_sweep_timeouts 400000 stSweep
  refine ⟨h.1, ?_, h.2.2.2.2.2.2⟩
  exact h.2.2.2.1 txConfirmed (by simp [stSweep]) (by decide)

/-! ### C8 — the manual-assignment credit mapping -/

/-- C8 counterexample: the admin route's inline package list maps amount
1000000 to 1120 credits, while the payment route's `CREDIT_PACKAGES` maps
the same amount to 1200 credits, so the two amount-to-credits mappings are
not equal for every amount. -/
theorem C8_counterexample :
    adminCreditsForAmount 1000000 = 1120 ∧
    getCreditsForAmount 1000000 = 1200 ∧
    adminCreditsForAmount 1000000 ≠ getCreditsForAmount 1000000 := by
  refine ⟨rfl, rfl, by decide⟩

/-- C8 (amended): ManualAssign computes the credited amount by exact lookup
in its own inline package list, falling back to `floor(amount/1000)`, and for
an unmatched log with positive amount it credits the target balance by
exactly this mapping; the mapping agrees with the payment route's
`getCreditsForAmount` for every amount except 1000000, where the admin list
yields 1120 credits but the payment package list yields 1200. -/
theorem C8_manual_assign_credits
    (st : St) (logId : Nat) (uid : Nat) (note : Option String) (adminId : Nat)
    (now : Int) (codeSuffix : String) (log : LogEntry) (user : UserRec)
    (hlog : findLogById st.logs logId = some log)
    (hnm : ¬ log.status = LogStatus.matched)
    (huser : st.users.find? (fun u => decide (u.id = uid)) = some user)
    (hamt : 0 < (log.parsedData.amount).getD 0) :
    balanceOfL (assignUserToWebhook st logId (some uid) note adminId now codeSuffix).1.users uid
      = balanceOfL st.users uid + adminCreditsForAmount ((log.parsedData.amount).getD 0) ∧
    (∀ amount : Int, amount ≠ 1000000 → adminCreditsForAmount amount = getCreditsForAmount amount) ∧
    adminCreditsForAmount 1000000 = 1120 ∧
    getCreditsForAmount 1000000 = 1200 := by
  have hid : user.id = uid := by
    have h0 := List.find?_some huser
    exact of_decide_eq_true h0
  refine ⟨?_, ?_, rfl, rfl⟩
  · have hle : ¬ ((log.parsedData.amount).getD 0 ≤ 0) := not_le.mpr hamt
    simp only [assignUserToWebhook, hlog, huser, if_neg hnm, if_neg hle]
    unfold balanceOfL
    rw [List.find?_map]
    have hpf : ((fun u : UserRec => decide (u.id = uid)) ∘
        (fun u : UserRec => if u.id = uid then
          { user with balance := user.balance
              + adminCreditsForAmount ((log.parsedData.amount).getD 0) }
        else u)) = fun u : UserRec => decide (u.id = uid) := by
      funext u
      by_cases hu : u.id = uid
      · simp [hu, hid]
      · simp [hu]
    rw [hpf, huser]
    simp [hid]
  · intro amount hne
    have hne' : (1000000 : Int) ≠ amount := fun h => hne h.symm
    by_cases h1 : (10000 : Int) = amount
    · rw [← h1]; decide
    · by_cases h2 : (100000 : Int) = amount
      · rw [← h2]; decide
      · by_cases h3 : (200000 : Int) = amount
        · rw [← h3]; decide
        · by_cases h4 : (500000 : Int) = amount
          · rw [← h4]; decide
          · have ha : ADMIN_CREDIT_PACKAGES.find? (fun p => decide (p.1 = amount)) = none := by
              rw [List.find?_eq_none]
              intro p hp
              fin_cases hp <;> simp [h1, h2, h3, h4, hne']
            have hb : CREDIT_PACKAGES.find? (fun p => decide (p.price = amount)) = none := by
              rw [List.find?_eq_none]
              intro p hp
              fin_cases hp <;> simp [CREDIT_PACKAGES, h1, h2, h3, h4, hne']
            simp only [adminCreditsForAmount, getCreditsForAmount, ha, hb]

/-- Witness for C8 as amended: assigning user 7 to the stored overpayment log
(amount 150000, no exact package) credits `floor(150000/1000) = 150`, and the
two mappings agree away from 1000000. -/
theorem C8_manual_assign_credits_witness :
    balanceOfL (assignUserToWebhook stOver 3 (some 7) none 9 0 "X1Y2").1.users 7
      = balanceOfL stOver.users 7 + adminCreditsForAmount ((logOver.parsedData.amount).getD 0) ∧
    adminCreditsForAmount 555000 = getCreditsForAmount 555000 := by
  have h := C8_manual_assign_credits stOver 3 7 none 9 0 "X1Y2" logOver userSeven
    (by decide) (by decide) (by decide) (by decide)
  exact ⟨h.1, h.2.1 555000 (by decide)⟩

/-! ### C9 — transfer-code generation -/

/-- C9 counterexample: the generation alphabet does contain the digit `1`
(only `0`, `O`, `I`, `l` were removed), and a run of
`generateTransferContent` can return a code whose suffix uses it. -/
theorem C9_counterexample :
    generateTransferContent 0 0 0 0 0 0 id = "ALPHAAA11AA" ∧
    '1' ∈ (generateTransferContent 0 0 0 0 0 0 id).toList ∧
    '1' ∈ allChars.toList := by
  refine ⟨rfl, by decide, by decide⟩

/-- A random draw lands inside the alphabet it draws from. -/
theorem pickChar_mem (s : String) (r : Nat) (h : 0 < s.toList.length) :
    pickChar s r ∈ s.toList := by
  unfold pickChar
  have hlt : r % s.toList.length < s.toList.length := Nat.mod_lt _ h
  rw [List.getD_eq_getElem?_getD, List.getElem?_eq_getElem hlt]
  exact List.getElem_mem hlt

/-- A successful run of the collision loop returns an untaken candidate. -/
theorem pickFreshCode_some (taken : String → Bool) :
    ∀ (l : List String) (c : String),
      pickFreshCode taken l = some c → taken c = false ∧ c ∈ l := by
  intro l
  induction l with
  | nil =>
    intro c h
    simp [pickFreshCode] at h
  | cons a rest ih =>
    intro c h
    by_cases ha : taken a
    · rw [pickFreshCode, if_pos ha] at h
      rcases ih c h with ⟨h1, h2⟩
      exact ⟨h1, List.mem_cons_of_mem _ h2⟩
    · rw [pickFreshCode, if_neg ha] at h
      cases h
      exact ⟨Bool.not_eq_true _ ▸ eq_false_of_ne_true ha, List.mem_cons_self a rest⟩

/-- The collision loop is exhausted exactly when every candidate collides. -/
theorem pickFreshCode_none (taken : String → Bool) :
    ∀ l : List String, pickFreshCode taken l = none ↔ ∀ c ∈ l, taken c = true := by
  intro l
  induction l with
  | nil => simp [pickFreshCode]
  | cons a rest ih =>
    by_cases ha : taken a
    · simp [pickFreshCode, ha, ih]
    · simp [pickFreshCode, ha]

/-- C9 (amended): every generated transferCode is the fixed `ALPHA` marker
followed by a six-character suffix drawn from `allChars`, an alphabet that
excludes `0`, `O`, `I` and `l` — but does contain the digit `1`; and the
`/create` route's collision loop returns an unused code from among the first
10 candidates, or gives up (HTTP 500) exactly when all 10 collide. -/
theorem C9_code_generation (r1 r2 r3 r4 r5 r6 : Nat) (shuffle : List Char → List Char)
    (hsh : ∀ l : List Char, (shuffle l).Perm l)
    (taken : String → Bool) (cands : List String) :
    (∃ suffix : List Char,
       generateTransferContent r1 r2 r3 r4 r5 r6 shuffle = "ALPHA" ++ String.mk suffix ∧
       suffix.length = 6 ∧
       ∀ c ∈ suffix, c ∈ allChars.toList ∧ c ≠ '0' ∧ c ≠ 'O' ∧ c ≠ 'I' ∧ c ≠ 'l') ∧
    ('1' ∈ allChars.toList) ∧
    (∀ c, generateUniqueCode taken cands = some c → taken c = false ∧ c ∈ cands) ∧
    (generateUniqueCode taken cands = none ↔ ∀ c ∈ cands.take 10, taken c = true) := by
  have hupper : ∀ c ∈ uppercaseChars.toList, c ∈ allChars.toList := by decide
  have hnum : ∀ c ∈ numberChars.toList, c ∈ allChars.toList := by decide
  have hconf : ∀ c ∈ allChars.toList, c ≠ '0' ∧ c ≠ 'O' ∧ c ≠ 'I' ∧ c ≠ 'l' := by decide
  refine ⟨⟨shuffle [pickChar uppercaseChars r1, pickChar uppercaseChars r2,
      pickChar numberChars r3, pickChar numberChars r4,
      pickChar allChars r5, pickChar allChars r6], rfl, ?_, ?_⟩, by decide, ?_, ?_⟩
  · rw [(hsh _).length_eq]
    rfl
  · intro c hc
    have hmem := (hsh _).mem_iff.mp hc
    have hall : c ∈ allChars.toList := by
      rcases List.mem_cons.mp hmem with h | hmem
      · exact h ▸ hupper _ (pickChar_mem _ _ (by decide))
      rcases List.mem_cons.mp hmem with h | hmem
      · exact h ▸ hupper _ (pickChar_mem _ _ (by decide))
      rcases List.mem_cons.mp hmem with h | hmem
      · exact h ▸ hnum _ (pickChar_mem _ _ (by decide))
      rcases List.mem_cons.mp hmem with h | hmem
      · exact h ▸ hnum _ (pickChar_mem _ _ (by decide))
      rcases List.mem_cons.mp hmem with h | hmem
      · exact h ▸ pickChar_mem _ _ (by decide)
      rcases List.mem_cons.mp hmem with h | hmem
      · exact h ▸ pickChar_mem _ _ (by decide)
      · simp at hmem
    exact ⟨hall, hconf c hall⟩
  · intro c h
    rcases pickFreshCode_some taken (cands.take 10) c h with ⟨h1, h2⟩
    exact ⟨h1, List.take_subset 10 cands h2⟩
  · exact pickFreshCode_none taken (cands.take 10)

/-- Witness for C9 as amended, at concrete draws, the identity shuffle, and a
concrete collision oracle. -/
theorem C9_code_generation_witness :
    (∃ suffix : List Char,
       generateTransferContent 1 2 3 4 5 6 id = "ALPHA" ++ String.mk suffix ∧
       suffix.length = 6 ∧
       ∀ c ∈ suffix, c ∈ allChars.toList ∧ c ≠ '0' ∧ c ≠ 'O' ∧ c ≠ 'I' ∧ c ≠ 'l') ∧
    (∀ c, generateUniqueCode (fun s => decide (s = "ALPHABC12DE")) ["ALPHABC12DE", "ALPHADE34FG"]
       = some c → (fun s => decide (s = "ALPHABC12DE")) c = false ∧ c ∈ ["ALPHABC12DE", "ALPHADE34FG"]) := by
  have h := C9_code_generation 1 2 3 4 5 6 id (fun l => List.Perm.refl l)
    (fun s => decide (s = "ALPHABC12DE")) ["ALPHABC12DE", "ALPHADE34FG"]
  exact ⟨h.1, h.2.2.1⟩

/-! ### C2, C3, C10 — the live webhook path -/

/-- C3: whenever the extracted code has a pending transaction but the
reported amount differs (any nonzero deviation), no balance changes, the
transaction is failed with the mismatch reason recorded, and the webhook log
is persisted in `error` status. -/
theorem C3_amount_mismatch_never_credits
    (secret : String) (token : Option String) (body : CassoPayload) (now : Int) (st : St)
    (d : CassoData) (code : String) (tx : Tx)
    (hver : verifyCassoWebhook secret token = true)
    (herr : body.error = some 0)
    (hdata : body.data = some d)
    (hcode : extractAlphaCode ((d.description).getD "") = some code)
    (hfind : findPendingTx st.txs code = some tx)
    (hne : tx.amount ≠ d.amount) :
    (processCassoWebhook secret token body now st).1.users = st.users ∧
    ({ tx with
        status := TxStatus.failed
        failedReason := some ("Amount mismatch: expected " ++ toString tx.amount
          ++ ", got " ++ toString d.amount)
        webhookData := some (.txdata d)
        webhookLogId := some st.nextLogId }
      ∈ (processCassoWebhook secret token body now st).1.txs) ∧
    (∃ l, (processCassoWebhook secret token body now st).1.logs = st.logs ++ [l] ∧
       l.status = LogStatus.error ∧
       l.errorMessage = some ("Amount mismatch: expected " ++ toString tx.amount
         ++ ", got " ++ toString d.amount)) ∧
    (processCassoWebhook secret token body now st).2.1 = ⟨200, true, "Amount mismatch"⟩ := by
  have hmemtx : tx ∈ st.txs := by
    have hf := hfind
    unfold findPendingTx at hf
    exact List.mem_of_find?_eq_some hf
  rw [processCassoWebhook_mismatch_eq now st hver herr hdata hcode hfind hne]
  exact ⟨rfl, mem_saveTxById_self hmemtx rfl, ⟨_, rfl, rfl, rfl⟩, rfl⟩

/-- Witness for C3: the off-by-one webhook `bodyOff` against the pending
`txOne` leaves balances alone and reports the mismatch. -/
theorem C3_amount_mismatch_never_credits_witness :
    (processCassoWebhook "" none bodyOff 5 stOne).1.users = stOne.users ∧
    (processCassoWebhook "" none bodyOff 5 stOne).2.1 = ⟨200, true, "Amount mismatch"⟩ := by
  have h := C3_amount_mismatch_never_credits "" none bodyOff 5 stOne dataOff "ALPHAAB23CD" txOne
    rfl rfl rfl (by decide) (by decide) (by decide)
  exact ⟨h.1, h.2.2.2⟩

/-- C2: a valid matching webhook delivered twice in sequence settles on the
first delivery (transaction completed, balance credited by `credits` once,
log matched), and the second delivery finds no pending transaction for the
code, stores an `unmatched` log, and leaves transactions and balances
untouched. -/
theorem C2_replay_credits_once
    (secret : String) (token : Option String) (body : CassoPayload) (now now2 : Int) (st : St)
    (d : CassoData) (code : String) (tx : Tx) (uid : Nat)
    (hver : verifyCassoWebhook secret token = true)
    (herr : body.error = some 0)
    (hdata : body.data = some d)
    (hcode : extractAlphaCode ((d.description).getD "") = some code)
    (hfind : findPendingTx st.txs code = some tx)
    (heq : tx.amount = d.amount)
    (huid : tx.userId = some uid)
    (huser : (st.users.find? fun u => decide (u.id = uid)).isSome)
    (huniq : ∀ t ∈ st.txs, t.transactionCode = code → t = tx) :
    (processCassoWebhook secret token body now st).2.1
        = ⟨200, true, "Webhook processed successfully"⟩ ∧
    balanceOfL (processCassoWebhook secret token body now st).1.users uid
        = balanceOfL st.users uid + tx.credits ∧
    (∃ t ∈ (processCassoWebhook secret token body now st).1.txs,
       t.id = tx.id ∧ t.transactionCode = code ∧ t.status = TxStatus.completed) ∧
    (∃ l, (processCassoWebhook secret token body now st).1.logs = st.logs ++ [l] ∧
       l.status = LogStatus.matched) ∧
    (processCassoWebhook secret token body now2
        (processCassoWebhook secret token body now st).1).2.1
        = ⟨200, true, "No pending transaction found"⟩ ∧
    (processCassoWebhook secret token body now2
        (processCassoWebhook secret token body now st).1).1.users
        = (processCassoWebhook secret token body now st).1.users ∧
    (processCassoWebhook secret token body now2
        (processCassoWebhook secret token body now st).1).1.txs
        = (processCassoWebhook secret token body now st).1.txs ∧
    (∃ l2, (processCassoWebhook secret token body now2
        (processCassoWebhook secret token body now st).1).1.logs
        = (processCassoWebhook secret token body now st).1.logs ++ [l2] ∧
       l2.status = LogStatus.unmatched) := by
  have hmemtx : tx ∈ st.txs := by
    have hf := hfind
    unfold findPendingTx at hf
    exact List.mem_of_find?_eq_some hf
  have hcodeEq : tx.transactionCode = code := by
    have hf := hfind
    unfold findPendingTx at hf
    have hp := List.find?_some hf
    exact (of_decide_eq_true hp).1
  have hst1 := processCassoWebhook_settle_eq now st hver herr hdata hcode hfind heq huid
  have hnone : findPendingTx (saveTxById st.txs
      { tx with
        status := .completed
        webhookData := some (.txdata d)
        webhookLogId := some st.nextLogId
        bankTransactionId := d.reference
        processedAt := some now
        description := "Nạp " ++ toString tx.credits ++ " credits từ "
          ++ (d.counterAccountName).getD "Bank Transfer" }) code = none := by
    refine findPendingTx_saveTxById_none huniq rfl ?_
    intro hcon
    exact TxStatus.noConfusion hcon
  have hst2 := processCassoWebhook_nopending_eq now2
    { st with
       txs := saveTxById st.txs
         { tx with
           status := .completed
           webhookData := some (.txdata d)
           webhookLogId := some st.nextLogId
           bankTransactionId := d.reference
           processedAt := some now
           description := "Nạp " ++ toString tx.credits ++ " credits từ "
             ++ (d.counterAccountName).getD "Bank Transfer" }
       users := incBalance st.users uid tx.credits
       logs := st.logs ++
         [{ id := st.nextLogId
            payload := .txdata d
            parsedData :=
              { transactionCode := some code
                amount := some d.amount
                description := d.description
                bankTransactionId := d.reference }
            status := .matched
            matchedTransactionId := some tx.id
            matchedUserId := some uid
            processingNotes := some ("Successfully matched and processed. Credits: "
              ++ toString tx.credits) }]
       nextLogId := st.nextLogId + 1 }
    hver herr hdata hcode hnone
  refine ⟨?_, ?_, ?_, ?_, ?_, ?_, ?_, ?_⟩
  · rw [hst1]
  · rw [hst1]
    exact balanceOfL_incBalance tx.credits huser
  · rw [hst1]
    exact ⟨_, mem_saveTxById_self hmemtx rfl, rfl, hcodeEq, rfl⟩
  · rw [hst1]
    exact ⟨_, rfl, rfl⟩
  · rw [hst1]
    exact congrArg (fun r => r.2.1) hst2
  · rw [hst1]
    exact congrArg (fun r => r.1.users) hst2
  · rw [hst1]
    exact congrArg (fun r => r.1.txs) hst2
  · rw [hst1]
    refine ⟨_, congrArg (fun r => r.1.logs) hst2, rfl⟩

/-- Witness for C2: the concrete replay of `bodyOne` against `stOne`. -/
theorem C2_replay_credits_once_witness :
    balanceOfL (processCassoWebhook "" none bodyOne 1000 stOne).1.users 7
        = balanceOfL stOne.users 7 + txOne.credits ∧
    (processCassoWebhook "" none bodyOne 2000
        (processCassoWebhook "" none bodyOne 1000 stOne).1).2.1
        = ⟨200, true, "No pending transaction found"⟩ ∧
    (processCassoWebhook "" none bodyOne 2000
        (processCassoWebhook "" none bodyOne 1000 stOne).1).1.users
        = (processCassoWebhook "" none bodyOne 1000 stOne).1.users := by
  have h := C2_replay_credits_once "" none bodyOne 1000 2000 stOne dataOne "ALPHAAB23CD" txOne 7
    rfl rfl rfl (by decide) (by decide) rfl rfl (by decide) (by decide)
  exact ⟨h.2.1, h.2.2.2.2.1, h.2.2.2.2.2.1⟩

/-- C10: with no configured webhook secret, `verifyCassoWebhook` accepts
every request; consequently the handler's behavior does not depend on the
presented token at all, and any caller's matching payload settles the
pending transaction and credits the balance exactly as an authentic one. -/
theorem C10_empty_secret_accepts_all :
    (∀ token : Option String, verifyCassoWebhook "" token = true) ∧
    (∀ (token token' : Option String) (body : CassoPayload) (now : Int) (st : St),
       processCassoWebhook "" token body now st = processCassoWebhook "" token' body now st) ∧
    (∀ (token : Option String) (body : CassoPayload) (now : Int) (st : St)
       (d : CassoData) (code : String) (tx : Tx) (uid : Nat),
       body.error = some 0 →
       body.data = some d →
       extractAlphaCode ((d.description).getD "") = some code →
       findPendingTx st.txs code = some tx →
       tx.amount = d.amount →
       tx.userId = some uid →
       (st.users.find? fun u => decide (u.id = uid)).isSome →
       (processCassoWebhook "" token body now st).2.1
           = ⟨200, true, "Webhook processed successfully"⟩ ∧
       balanceOfL (processCassoWebhook "" token body now st).1.users uid
           = balanceOfL st.users uid + tx.credits ∧
       (∃ t ∈ (processCassoWebhook "" token body now st).1.txs,
          t.id = tx.id ∧ t.status = TxStatus.completed)) := by
  have hv : ∀ token : Option String, verifyCassoWebhook "" token = true := by
    intro token
    simp [verifyCassoWebhook]
  refine ⟨hv, ?_, ?_⟩
  · intro token token' body now st
    simp [processCassoWebhook, hv]
  · intro token body now st d code tx uid herr hdata hcode hfind heq huid huser
    have hmemtx : tx ∈ st.txs := by
      have hf := hfind
      unfold findPendingTx at hf
      exact List.mem_of_find?_eq_some hf
    rw [processCassoWebhook_settle_eq now st (hv token) herr hdata hcode hfind heq huid]
    exact ⟨rfl, balanceOfL_incBalance tx.credits huser,
      ⟨_, mem_saveTxById_self hmemtx rfl, rfl, rfl⟩⟩

/-- Witness for C10: with the empty secret and no token, `bodyOne` settles
`txOne` and credits user 7. -/
theorem C10_empty_secret_accepts_all_witness :
    verifyCassoWebhook "" none = true ∧
    (processCassoWebhook "" none bodyOne 1000 stOne).2.1
        = ⟨200, true, "Webhook processed successfully"⟩ ∧
    balanceOfL (processCassoWebhook "" none bodyOne 1000 stOne).1.users 7
        = balanceOfL stOne.users 7 + txOne.credits := by
  have h := C10_empty_secret_accepts_all
  have h3 := h.2.2 none bodyOne 1000 stOne dataOne "ALPHAAB23CD" txOne 7
    rfl rfl (by decide) (by decide) rfl rfl (by decide)
  exact ⟨h.1 none, h3.1, h3.2.1⟩

/-! ### C4 — persistence discipline of the webhook endpoint -/

/-- C4 counterexample: on an unauthenticated-looking call (wrong/missing
token with a configured secret) the handler verifies the signature FIRST and
only then persists the WebhookEvent — the trace starts with the verify
round-trip, so no log row is persisted ahead of verification, and the single
persisted row carries status `error`, not received/processing. -/
theorem C4_counterexample : ¬ persistFirstAt "topsecret" none {} 0 {} := by
  intro h
  rcases h with ⟨-, s, hs, -⟩
  rw [show (processCassoWebhook "topsecret" none {} 0 {}).2.2.head?
      = some (Ev.verify false) from rfl] at hs
  simp at hs

/-- C4 (amended): every call to the webhook endpoint persists exactly one
WebhookEvent row, but signature verification is the first store action and
the single row is written afterwards, already carrying the terminal outcome
status (matched, unmatched or error) rather than received/processing. -/
theorem C4_exactly_one_log
    (secret : String) (token : Option String) (body : CassoPayload) (now : Int) (st : St) :
    (processCassoWebhook secret token body now st).1.logs.length = st.logs.length + 1 ∧
    (logSaveStatuses (processCassoWebhook secret token body now st).2.2).length = 1 ∧
    (∃ ok, (processCassoWebhook secret token body now st).2.2.head? = some (.verify ok)) ∧
    (∀ s ∈ logSaveStatuses (processCassoWebhook secret token body now st).2.2,
       s = LogStatus.matched ∨ s = LogStatus.unmatched ∨ s = LogStatus.error) := by
  by_cases hv : verifyCassoWebhook secret token
  case neg =>
    have hv' : verifyCassoWebhook secret token = false := eq_false_of_ne_true hv
    simp [processCassoWebhook, hv', appendLog, logSaveStatuses]
  case pos =>
    by_cases herr : body.error = some 0
    case neg =>
      have hb : (body.error != some 0) = true := by simpa [bne_iff_ne] using herr
      simp [processCassoWebhook, processAfterVerify, hv, hb, appendLog, logSaveStatuses]
    case pos =>
      have hb : (body.error != some 0) = false := by simp [herr]
      cases hdata : body.data with
      | none =>
        simp [processCassoWebhook, processAfterVerify, hv, hb, hdata, appendLog, logSaveStatuses]
      | some d =>
        cases hcode : extractAlphaCode ((d.description).getD "") with
        | none =>
          simp [processCassoWebhook, processAfterVerify, processData, hv, hb, hdata, hcode,
            appendLog, logSaveStatuses]
        | some code =>
          cases hfind : findPendingTx st.txs code with
          | none =>
            simp [processCassoWebhook, processAfterVerify, processData, hv, hb, hdata, hcode,
              hfind, appendLog, logSaveStatuses]
          | some tx =>
            by_cases hamt : tx.amount = d.amount
            case neg =>
              have hb2 : (tx.amount != d.amount) = true := by simpa [bne_iff_ne] using hamt
              simp [processCassoWebhook, processAfterVerify, processData, hv, hb, hdata, hcode,
                hfind, hb2, appendLog, logSaveStatuses]
            case pos =>
              have hb2 : (tx.amount != d.amount) = false := by simp [hamt]
              cases huid : tx.userId with
              | none =>
                simp [processCassoWebhook, processAfterVerify, processData, hv, hb, hdata,
                  hcode, hfind, hb2, huid, appendLog, logSaveStatuses]
              | some uid =>
                simp [processCassoWebhook, processAfterVerify, processData, hv, hb, hdata,
                  hcode, hfind, hb2, huid, appendLog, logSaveStatuses]

/-- Witness for C4 as amended, at the concrete settle scenario. -/
theorem C4_exactly_one_log_witness :
    (processCassoWebhook "" none bodyOne 1000 stOne).1.logs.length = stOne.logs.length + 1 ∧
    (∃ ok, (processCassoWebhook "" none bodyOne 1000 stOne).2.2.head? = some (.verify ok)) := by
  have h := C4_exactly_one_log "" none bodyOne 1000 stOne
  exact ⟨h.1, h.2.2.1⟩

/-! ### C5, C6 — admin reprocessing -/

/-- C5 counterexample: reprocessing the already-`matched` event `logMatched`
is not refused — the route runs the matcher, finds no pending transaction
for the stored code, answers HTTP 200, and OVERWRITES the event's status
from `matched` to `unmatched`, so the WebhookEvent does not stay unchanged. -/
theorem C5_counterexample :
    logMatched.status = LogStatus.matched ∧
    (reprocessWebhookLog stMatched 3 9 0).2
      = ⟨200, false, "Không tìm thấy giao dịch pending với mã ALPHAZZ88ZZ"⟩ ∧
    (reprocessWebhookLog stMatched 3 9 0).1.logs.map LogEntry.status = [LogStatus.unmatched] ∧
    ¬ (reprocessWebhookLog stMatched 3 9 0).1 = stMatched := by
  exact ⟨rfl, rfl, rfl, by decide⟩

/-- C5 (amended): the Reprocess route performs no matched-status check: run
on an event already in `matched` status it re-runs the matcher and updates
the event in place — when the stored code has no pending transaction the
event is overwritten to `unmatched` (HTTP 200, success=false), while
transactions and balances stay unchanged. -/
theorem C5_reprocess_ignores_matched
    (st : St) (logId : Nat) (adminId : Nat) (now : Int) (log : LogEntry) (code : String)
    (hlog : findLogById st.logs logId = some log)
    (_hm : log.status = LogStatus.matched)
    (hcode : extractAlphaCode ((log.parsedData.description).getD "") = some code)
    (hnone : findPendingTx st.txs code = none) :
    (reprocessWebhookLog st logId adminId now).1.txs = st.txs ∧
    (reprocessWebhookLog st logId adminId now).1.users = st.users ∧
    (reprocessWebhookLog st logId adminId now).2.status = 200 ∧
    (reprocessWebhookLog st logId adminId now).2.success = false ∧
    ({ log with
        status := LogStatus.unmatched
        processingNotes := some ("Reprocessed: No pending transaction found for " ++ code) }
      ∈ (reprocessWebhookLog st logId adminId now).1.logs) := by
  have hmem : log ∈ st.logs := by
    have hf := hlog
    unfold findLogById at hf
    exact List.mem_of_find?_eq_some hf
  have heq : reprocessWebhookLog st logId adminId now =
      ({ st with logs := (saveLogById st.logs
          { log with
            status := LogStatus.unmatched
            processingNotes := some ("Reprocessed: No pending transaction found for " ++ code) }) },
       ⟨200, false, "Không tìm thấy giao dịch pending với mã " ++ code⟩) := by
    simp only [reprocessWebhookLog, hlog, hcode, hnone]
  rw [heq]
  exact ⟨rfl, rfl, rfl, rfl, mem_saveLogById_self hmem rfl⟩

/-- Witness for C5 as amended, on the concrete matched log. -/
theorem C5_reprocess_ignores_matched_witness :
    (reprocessWebhookLog stMatched 3 9 0).2.status = 200 ∧
    ({ logMatched with
        status := LogStatus.unmatched
        processingNotes := some "Reprocessed: No pending transaction found for ALPHAZZ88ZZ" }
      ∈ (reprocessWebhookLog stMatched 3 9 0).1.logs) := by
  have h := C5_reprocess_ignores_matched stMatched 3 9 0 logMatched "ALPHAZZ88ZZ"
    (by decide) rfl (by decide) rfl
  exact ⟨h.2.2.1, h.2.2.2.2⟩

/-- C6 counterexample: on the stored overpayment (150000 against txOne's
100000 — a deviation above), Reprocess does NOT report AmountMismatch: it
settles the transaction, credits the balance, and marks the event matched,
unlike the live webhook path's exact-equality rule. -/
theorem C6_counterexample :
    (logOver.parsedData.amount).getD 0 ≠ txOne.amount ∧
    (reprocessWebhookLog stOver 3 9 0).2.success = true ∧
    balanceOfL (reprocessWebhookLog stOver 3 9 0).1.users 7
      = balanceOfL stOver.users 7 + txOne.credits ∧
    (reprocessWebhookLog stOver 3 9 0).1.txs.map Tx.status = [TxStatus.completed] ∧
    (reprocessWebhookLog stOver 3 9 0).1.logs.map LogEntry.status = [LogStatus.matched] := by
  exact ⟨by decide, rfl, by decide, rfl, rfl⟩

/-- C6 (amended): Reprocess's amount guard is `amount < transaction.amount`,
not exact equality: strictly-below deviations yield the mismatch outcome
(event → error, transaction and balances untouched), while any amount at or
above the pending amount settles and credits.  It therefore agrees with the
live webhook path — which settles exactly on equality and fails any other
amount — only for amounts ≤ the pending amount. -/
theorem C6_reprocess_vs_live
    (st : St) (logId : Nat) (adminId : Nat) (now : Int) (log : LogEntry) (code : String)
    (tx : Tx) (uid : Nat)
    (secret : String) (token : Option String) (body : CassoPayload) (d : CassoData)
    (hlog : findLogById st.logs logId = some log)
    (hcode : extractAlphaCode ((log.parsedData.description).getD "") = some code)
    (hfind : findPendingTx st.txs code = some tx)
    (huid : tx.userId = some uid)
    (huser : (st.users.find? fun u => decide (u.id = uid)).isSome)
    (hver : verifyCassoWebhook secret token = true)
    (herr : body.error = some 0)
    (hdata : body.data = some d)
    (hdcode : extractAlphaCode ((d.description).getD "") = some code)
    (hamt : d.amount = (log.parsedData.amount).getD 0) :
    ((log.parsedData.amount).getD 0 < tx.amount →
       (reprocessWebhookLog st logId adminId now).1.txs = st.txs ∧
       (reprocessWebhookLog st logId adminId now).1.users = st.users ∧
       (reprocessWebhookLog st logId adminId now).2.success = false) ∧
    (tx.amount ≤ (log.parsedData.amount).getD 0 →
       balanceOfL (reprocessWebhookLog st logId adminId now).1.users uid
         = balanceOfL st.users uid + tx.credits ∧
       (∃ t ∈ (reprocessWebhookLog st logId adminId now).1.txs,
          t.id = tx.id ∧ t.status = TxStatus.completed) ∧
       (reprocessWebhookLog st logId adminId now).2.success = true) ∧
    (tx.amount < (log.parsedData.amount).getD 0 →
       (processCassoWebhook secret token body now st).1.users = st.users ∧
       (∃ t ∈ (processCassoWebhook secret token body now st).1.txs,
          t.id = tx.id ∧ t.status = TxStatus.failed)) ∧
    (tx.amount = (log.parsedData.amount).getD 0 →
       balanceOfL (processCassoWebhook secret token body now st).1.users uid
         = balanceOfL st.users uid + tx.credits) := by
  have hmemtx : tx ∈ st.txs := by
    have hf := hfind
    unfold findPendingTx at hf
    exact List.mem_of_find?_eq_some hf
  refine ⟨?_, ?_, ?_, ?_⟩
  · intro hlt
    have heq : reprocessWebhookLog st logId adminId now =
        ({ st with logs := (saveLogById st.logs
            { log with
              status := LogStatus.error
              processingNotes := some ("Reprocessed: Amount mismatch. Expected "
                ++ toString tx.amount ++ ", got " ++ toString ((log.parsedData.amount).getD 0)) }) },
         ⟨200, false, "Số tiền không khớp. Cần " ++ toString tx.amount
           ++ ", nhận " ++ toString ((log.parsedData.amount).getD 0)⟩) := by
      simp only [reprocessWebhookLog, hlog, hcode, hfind, if_pos hlt]
    rw [heq]
    exact ⟨rfl, rfl, rfl⟩
  · intro hge
    have heq : reprocessWebhookLog st logId adminId now =
        ({ st with
            txs := (saveTxById st.txs
              { tx with
                status := TxStatus.completed
                webhookData := some log.payload
                webhookLogId := some log.id
                bankTransactionId := orNullStr log.parsedData.bankTransactionId
                processedAt := some now
                processedBy := some adminId
                adminNote := some "Reprocessed from webhook log by admin" })
            users := incBalance st.users uid tx.credits
            logs := (saveLogById st.logs
              { log with
                status := LogStatus.matched
                matchedTransactionId := some tx.id
                matchedUserId := some uid
                processingNotes := some "Reprocessed successfully by admin" }) },
         ⟨200, true, "Đã xử lý thành công. Cộng " ++ toString tx.credits ++ " credits."⟩) := by
      simp only [reprocessWebhookLog, hlog, hcode, hfind, if_neg (not_lt.mpr hge), huid]
    rw [heq]
    refine ⟨balanceOfL_incBalance tx.credits huser,
      ⟨_, mem_saveTxById_self hmemtx rfl, rfl, rfl⟩, rfl⟩
  · intro hlt
    have hne : tx.amount ≠ d.amount := by
      rw [hamt]
      exact ne_of_lt hlt
    rw [processCassoWebhook_mismatch_eq now st hver herr hdata hdcode hfind hne]
    exact ⟨rfl, ⟨_, mem_saveTxById_self hmemtx rfl, rfl, rfl⟩⟩
  · intro heqa
    have heq : tx.amount = d.amount := by rw [hamt]; exact heqa
    rw [processCassoWebhook_settle_eq now st hver herr hdata hdcode hfind heq huid]
    exact balanceOfL_incBalance tx.credits huser

/-- Witness for C6 as amended: the stored 150000 overpayment settles through
Reprocess, while the live path with the same reported amount marks the
transaction failed and leaves the balance alone. -/
theorem C6_reprocess_vs_live_witness :
    balanceOfL (reprocessWebhookLog stOver 3 9 0).1.users 7
      = balanceOfL stOver.users 7 + txOne.credits ∧
    (processCassoWebhook "" none bodyOver 0 stOver).1.users = stOver.users := by
  have h := C6_reprocess_vs_live stOver 3 9 0 logOver "ALPHAAB23CD" txOne 7
    "" none bodyOver dataOver
    (by decide) (by decide) (by decide) rfl (by decide) rfl rfl rfl (by decide) (by decide)
  exact ⟨(h.2.1 (by decide)).1, (h.2.2.1 (by decide)).1⟩

end AlphaStudio
